import Mathlib

set_option autoImplicit false

/-
Verification of the Record Access Layer (`ModelManager`) of the
fastapi-starter repository, embedded shallowly from
`src/app/db/managers/base.py`.

The embedding models the SQLAlchemy async session as an explicit state:
  * `dbDurable`  - rows made durable by a commit (what survives the session);
  * `dbTxn`      - rows visible to queries inside the open transaction
                   (durable rows plus flushed-but-uncommitted changes);
  * `pending`    - instances added to the session (or dirtied by attribute
                   assignment) that have not been flushed yet;
  * `autoflush`  - when true, executing a query first flushes `pending`
                   into `dbTxn` (flush-then-read semantics);
  * `nextOid`    - source of fresh object identities.  Object identity and
                   the primary key are conflated: every instance carries an
                   `oid` assigned at construction, queries return instances
                   by value carrying their `oid`, so "same instance" means
                   "same oid".

Fallible operations return `Except Err result` paired with the post-state
(the state survives an exception, as the Python session object does).

Filter values can carry two kinds of faults, mirroring how a SQLAlchemy
`StatementError` arises while binding query parameters:
  * `Val.unsetCol c` - the filter references a required column that has no
    value yet (the narrowly-classified error whose message contains
    "no value has been set for this column");
  * `Val.errVal msg` - any other statement-level storage failure with
    message `msg` (e.g. a wrapped DBAPI/connection error).
-/

namespace FastapiStarter

/-- A field value, including the two fault-carrying forms used to model
statement errors raised while binding query parameters. -/
inductive Val where
  | str (s : String)
  | int (n : Int)
  | nullV
  | unsetCol (col : String)
  | errVal (msg : String)
deriving DecidableEq, Repr

/-- Keyword arguments / model fields: an ordered association list, as
produced by Python `**kwargs` (keys are unique when built by Python). -/
abbrev Fields := List (String × Val)

/-- A model instance: an object identity (doubling as the primary key,
assigned at construction) and its fields. -/
structure Inst where
  oid : Nat
  fields : Fields
deriving DecidableEq, Repr

/-- Errors surfaced by the data layer.  `statementError` models
`sqlalchemy.exc.StatementError` (message included); `multipleResultsFound`
models `sqlalchemy.exc.MultipleResultsFound` raised by `one_or_none`
(the spec calls it AmbiguousResult), which is not a `StatementError`;
`typeErrorDupKwarg` models the Python `TypeError` raised at a call site
when the same keyword is passed twice; `attributeError` models an
`AttributeError` on attribute access; `otherError` covers the rest. -/
inductive Err where
  | statementError (msg : String)
  | multipleResultsFound
  | typeErrorDupKwarg (key : String)
  | attributeError
  | otherError (msg : String)
deriving DecidableEq, Repr

/-- The session state (unit of work), as described above. -/
structure Session where
  dbDurable : List Inst
  dbTxn : List Inst
  pending : List Inst
  autoflush : Bool
  nextOid : Nat
deriving DecidableEq, Repr

/-- Does the character list `needle` occur as a prefix of `hay`? -/
def charsStartWith : List Char → List Char → Bool
  | [], _ => true
  | _ :: _, [] => false
  | n :: ns, h :: hs => n == h && charsStartWith ns hs

/-- Does the character list `needle` occur anywhere inside `hay`? -/
def charsHas (needle : List Char) : List Char → Bool
  | [] => charsStartWith needle []
  | c :: rest => charsStartWith needle (c :: rest) || charsHas needle rest

/-- Python `needle in hay` on strings (substring containment). -/
def strHas (hay needle : String) : Bool :=
  charsHas needle.data hay.data

/-- The substring `_maybe_get_by` tests the error message against. -/
def unsetColNeedle : String := "no value has been set for this column"

/-- The statement error, if any, raised while binding one filter value. -/
def valErr : Val → Option Err
  | .unsetCol c =>
      some (.statementError
        ("Error binding parameter: no value has been set for this column "
          ++ c))
  | .errVal msg => some (.statementError msg)
  | _ => none

/-- The first statement error raised while binding the filter values of a
query, if any. -/
def bindErr : Fields → Option Err
  | [] => none
  | kv :: rest =>
      match valErr kv.2 with
      | some e => some e
      | none => bindErr rest

/-- Flush one pending instance into the transaction-visible rows: an
UPDATE if a row with its identity is already there, an INSERT otherwise. -/
def applyOne (txn : List Inst) (p : Inst) : List Inst :=
  if txn.any (fun r => r.oid == p.oid) then
    txn.map (fun r => if r.oid == p.oid then p else r)
  else
    txn ++ [p]

/-- Flush a list of pending instances, in order. -/
def applyPending (txn pending : List Inst) : List Inst :=
  pending.foldl applyOne txn

/-- Flush the session: pending changes become visible in the transaction. -/
def flushS (s : Session) : Session :=
  { s with dbTxn := applyPending s.dbTxn s.pending, pending := [] }

/-- `session.commit()`: flush, then make the transaction durable. -/
def commitS (s : Session) : Session :=
  { flushS s with dbDurable := (flushS s).dbTxn }

/-- The flush performed before executing a query when autoflush is on. -/
def autoflushQ (s : Session) : Session :=
  if s.autoflush then flushS s else s

/-- The value of field `k` on fields `fs` (first binding wins, as in an
attribute lookup). -/
def lookupField (fs : Fields) (k : String) : Option Val :=
  (fs.find? (fun kv => kv.1 == k)).map (fun kv => kv.2)

/-- Does instance `i` satisfy the conjunctive equality filter `flt`
(`Select.filter_by`)? -/
def matchesFlt (flt : Fields) (i : Inst) : Bool :=
  flt.all (fun kv => lookupField i.fields kv.1 == some kv.2)

/-- `ModelManager.get_by(**flt)`: execute the filtered SELECT (autoflush
first when enabled, then bind parameters, which may raise), then
`one_or_none`: zero rows is `none`, one row is that row, more than one
raises `MultipleResultsFound`. -/
def get_by (flt : Fields) (s : Session) : Except Err (Option Inst) × Session :=
  match bindErr flt with
  | some e => (.error e, autoflushQ s)
  | none =>
      match (autoflushQ s).dbTxn.filter (matchesFlt flt) with
      | [] => (.ok none, autoflushQ s)
      | [i] => (.ok (some i), autoflushQ s)
      | _ :: _ :: _ => (.error .multipleResultsFound, autoflushQ s)

/-- `ModelManager.no_autoflush`: save the autoflush flag, run the body with
autoflush disabled, and restore the saved flag on every exit path (the
body's result, normal or error, is passed through unchanged). -/
def no_autoflush {α : Type} (body : Session → Except Err α × Session)
    (s : Session) : Except Err α × Session :=
  ((body { s with autoflush := false }).1,
   { (body { s with autoflush := false }).2 with autoflush := s.autoflush })

/-- The `try`/`except` block inside `_maybe_get_by`: run `get_by`; catch a
`StatementError` whose message contains
"no value has been set for this column" and return `None` instead;
re-raise any other `StatementError`; any non-`StatementError` propagates
uncaught. -/
def maybe_get_by_body (flt : Fields) (s0 : Session) :
    Except Err (Option Inst) × Session :=
  match get_by flt s0 with
  | (Except.error (Err.statementError msg), s1) =>
      if strHas msg unsetColNeedle then (Except.ok none, s1)
      else (Except.error (Err.statementError msg), s1)
  | r => r

/-- `ModelManager._maybe_get_by(**flt)`: the `try`/`except` block above,
run under `no_autoflush`. -/
def maybe_get_by (flt : Fields) (s : Session) :
    Except Err (Option Inst) × Session :=
  no_autoflush (maybe_get_by_body flt) s

/-- `ModelManager.save(instance, commit)`: `session.add`, then commit iff
the flag is set. -/
def save (i : Inst) (commit : Bool) (s : Session) : Session :=
  if commit then commitS { s with pending := s.pending ++ [i] }
  else { s with pending := s.pending ++ [i] }

/-- `ModelManager.create(commit, **fields)`: construct the instance from
the fields (fresh identity), then `save` it. -/
def create (fields : Fields) (commit : Bool) (s : Session) : Inst × Session :=
  (⟨s.nextOid, fields⟩,
   save ⟨s.nextOid, fields⟩ commit { s with nextOid := s.nextOid + 1 })

/-- `ModelManager.get(id)`: `session.get` by primary key; autoflush first
when enabled, then look the identity up in the transaction view.  A miss
is `none`, never an error. -/
def get (pk : Nat) (s : Session) : Except Err (Option Inst) × Session :=
  (.ok ((autoflushQ s).dbTxn.find? (fun i => i.oid == pk)), autoflushQ s)

/-- The Python call `self.create(**defaults, **kwargs, commit=commit)`:
merging the two keyword dicts raises `TypeError` on the first key of
`kwargs` already present in `defaults`; otherwise the merged fields are
`defaults` followed by `kwargs`. -/
def kwargsMerge (defaults flt : Fields) : Except Err Fields :=
  match flt.find? (fun kv => defaults.any (fun dv => dv.1 == kv.1)) with
  | some kv => .error (.typeErrorDupKwarg kv.1)
  | none => .ok (defaults ++ flt)

/-- `ModelManager.get_or_create(defaults, commit, **flt)`: look up via
`_maybe_get_by`; on a match return `(instance, False)`; otherwise create
from `**defaults, **flt` and return `(instance, True)`. -/
def get_or_create (defaults flt : Fields) (commit : Bool) (s : Session) :
    Except Err (Inst × Bool) × Session :=
  match maybe_get_by flt s with
  | (Except.error e, s1) => (.error e, s1)
  | (Except.ok (some i), s1) => (.ok (i, false), s1)
  | (Except.ok none, s1) =>
      match kwargsMerge defaults flt with
      | .error e => (.error e, s1)
      | .ok fields =>
          (.ok ((create fields commit s1).1, true), (create fields commit s1).2)

/-- `setattr(instance, k, v)` on the instance's fields. -/
def setField (fs : Fields) (k : String) (v : Val) : Fields :=
  if fs.any (fun kv => kv.1 == k) then
    fs.map (fun kv => if kv.1 == k then (k, v) else kv)
  else
    fs ++ [(k, v)]

/-- The `for key, value in defaults.items(): setattr(instance, key, value)`
loop of `update_or_create`. -/
def setAttrs (i : Inst) (defaults : Fields) : Inst :=
  { i with fields := defaults.foldl (fun fs kv => setField fs kv.1 kv.2) i.fields }

/-- `ModelManager.update_or_create(defaults, commit, **flt)`: look up via
`_maybe_get_by`; on no match create from `**defaults, **flt`; on a match
assign the default fields onto the instance (which dirties it in the
session) and return `(instance, False)` without calling `save` or
committing. -/
def update_or_create (defaults flt : Fields) (commit : Bool) (s : Session) :
    Except Err (Inst × Bool) × Session :=
  match maybe_get_by flt s with
  | (Except.error e, s1) => (.error e, s1)
  | (Except.ok none, s1) =>
      match kwargsMerge defaults flt with
      | .error e => (.error e, s1)
      | .ok fields =>
          (.ok ((create fields commit s1).1, true), (create fields commit s1).2)
  | (Except.ok (some i), s1) =>
      let i2 := setAttrs i defaults
      (.ok (i2, false), { s1 with pending := applyPending s1.pending [i2] })

/-
Model of `ModelManager.__init_subclass__` (class-binding of the manager to
its entity type).  Python type objects, attribute values, generic bases and
origins are embedded just deeply enough to express the branch conditions of
the source: truthiness of the `model` attribute, `isinstance(model, type)`,
`issubclass(model, Base)`, `get_origin(base)` being `ModelManager` or a
subclass of it, and `get_args(base)[0]` being a type subclassing `Base`.
-/

/-- A Python class object: either a subclass of the declarative `Base` or
some other class. -/
inductive PyTy where
  | baseModel (name : String)
  | otherTy (name : String)
deriving DecidableEq, Repr

/-- A possible value of the `model` class attribute: `None` (also standing
for "attribute absent", since the source reads it with
`getattr(cls, "model", None)`), a class object, or a non-class value. -/
inductive PyVal where
  | pyNone
  | ty (t : PyTy)
  | nonType (s : String)
deriving DecidableEq, Repr

/-- A type argument of a generic base: a class, or a `TypeVar` (which is
not a class). -/
inductive TyArg where
  | argTy (t : PyTy)
  | argTyVar (n : String)
deriving DecidableEq, Repr

/-- `get_origin` of an entry of `cls.__orig_bases__`: `ModelManager`
itself, a proper subclass of it, or anything else (e.g. `typing.Generic`). -/
inductive Origin where
  | originMM
  | originMMSub
  | originOther
deriving DecidableEq, Repr

/-- One entry of `cls.__orig_bases__`: its origin and its type arguments. -/
structure OrigBase where
  origin : Origin
  args : List TyArg
deriving DecidableEq, Repr

/-- A configuration error at class-definition time.  The source body of
`__init_subclass__` contains no raise statement; this error type exists so
that the embedding has room to express one, and no code path produces it. -/
inductive ConfigErr where
  | missingModel
deriving DecidableEq, Repr

/-- The guard `model and isinstance(model, type) and issubclass(model, Base)`
(class objects are truthy). -/
def isValidModel : PyVal → Bool
  | .ty (.baseModel _) => true
  | _ => false

/-- `get_origin(base) is ModelManager or (isinstance(origin, type) and
issubclass(origin, ModelManager))`. -/
def originMatches : Origin → Bool
  | .originMM => true
  | .originMMSub => true
  | .originOther => false

/-- `args and isinstance(args[0], type) and issubclass(args[0], Base)`:
the model extracted from the type arguments, if that guard passes. -/
def argsModel : List TyArg → Option PyTy
  | TyArg.argTy (PyTy.baseModel n) :: _ => some (PyTy.baseModel n)
  | _ => none

/-- The `for base in cls.__orig_bases__` loop: on the first base whose
origin matches and whose first type argument is a `Base` subclass, set
`cls.model` and break; otherwise leave the attribute as it was. -/
def loopBases (cur : PyVal) : List OrigBase → PyVal
  | [] => cur
  | b :: rest =>
      if originMatches b.origin then
        match argsModel b.args with
        | some t => PyVal.ty t
        | none => loopBases cur rest
      else
        loopBases cur rest

/-- `ModelManager.__init_subclass__`: if the `model` attribute is already a
valid `Base` subclass, return (keeping it); otherwise run the inference
loop over `__orig_bases__`.  The result is the final value of `cls.model`
(`pyNone` when still unset).  Every path returns `Except.ok`: the source
raises nothing at class-definition time. -/
def initSubclass (modelAttr : PyVal) (origBases : List OrigBase) :
    Except ConfigErr PyVal :=
  if isValidModel modelAttr then
    .ok modelAttr
  else
    .ok (loopBases modelAttr origBases)

/-- `ModelManager.select`, i.e. `select(self.model)`, executed at runtime:
reading `self.model` raises `AttributeError` when the attribute was never
set (the annotation alone supplies no value). -/
def selectStmt (modelAttr : PyVal) : Except Err PyTy :=
  match modelAttr with
  | PyVal.ty t => .ok t
  | PyVal.pyNone => .error Err.attributeError
  | PyVal.nonType _ => .error (Err.otherError "ArgumentError")

/-
Basic lemmas about the session-state behavior of the lookup helpers.
-/

theorem get_by_state (flt : Fields) (s : Session) :
    (get_by flt s).2 = autoflushQ s := by
  unfold get_by
  cases hb : bindErr flt with
  | some e => rfl
  | none =>
      cases hf : (autoflushQ s).dbTxn.filter (matchesFlt flt) with
      | nil => rfl
      | cons a t => cases t <;> rfl

theorem maybe_get_by_body_state (flt : Fields) (s0 : Session) :
    (maybe_get_by_body flt s0).2 = (get_by flt s0).2 := by
  unfold maybe_get_by_body
  rcases hgb : get_by flt s0 with ⟨r, st⟩
  rcases r with e | o
  · rcases e with msg | _ | k | _ | m
    · by_cases hs : strHas msg unsetColNeedle <;> simp [hs]
    all_goals rfl
  · rfl

theorem autoflushQ_off (s : Session) (h : s.autoflush = false) :
    autoflushQ s = s := by
  unfold autoflushQ
  rw [h]
  rfl

theorem maybe_get_by_state (flt : Fields) (s : Session) :
    (maybe_get_by flt s).2 = s := by
  unfold maybe_get_by no_autoflush
  have h1 : (maybe_get_by_body flt { s with autoflush := false }).2 =
      { s with autoflush := false } := by
    rw [maybe_get_by_body_state, get_by_state, autoflushQ_off]
    rfl
  show ({ (maybe_get_by_body flt { s with autoflush := false }).2 with
      autoflush := s.autoflush } : Session) = s
  rw [h1]

theorem loopBases_no_model (cur : PyVal) (bases : List OrigBase)
    (h : ∀ b ∈ bases, originMatches b.origin = false ∨ argsModel b.args = none) :
    loopBases cur bases = cur := by
  induction bases with
  | nil => rfl
  | cons b rest ih =>
      have hb := h b (by simp)
      have hrest : loopBases cur rest = cur :=
        ih (fun x hx => h x (by simp [hx]))
      cases ho : originMatches b.origin with
      | false => simp only [loopBases, ho, Bool.false_eq_true, if_false, hrest]
      | true =>
          have ha : argsModel b.args = none := by
            rcases hb with hb | hb
            · rw [ho] at hb; cases hb
            · exact hb
          simp only [loopBases, ho, if_true, ha, hrest]

/-- C6: the scoped no-autoflush context runs its body with autoflush
disabled, restores the prior autoflush setting on every exit path
(including when the body raises: the error case is stated explicitly), and
changes no other session state beyond what the body itself did. -/
theorem no_autoflush_scoped_restore (α : Type)
    (body : Session → Except Err α × Session) (s : Session) :
    (no_autoflush body s).2.autoflush = s.autoflush ∧
    ({ s with autoflush := false } : Session).autoflush = false ∧
    (no_autoflush body s).1 = (body { s with autoflush := false }).1 ∧
    (no_autoflush body s).2.dbDurable = (body { s with autoflush := false }).2.dbDurable ∧
    (no_autoflush body s).2.dbTxn = (body { s with autoflush := false }).2.dbTxn ∧
    (no_autoflush body s).2.pending = (body { s with autoflush := false }).2.pending ∧
    (no_autoflush body s).2.nextOid = (body { s with autoflush := false }).2.nextOid ∧
    ∀ (e : Err) (s2 : Session),
      body { s with autoflush := false } = (Except.error e, s2) →
      no_autoflush body s = (Except.error e, { s2 with autoflush := s.autoflush }) := by
  refine ⟨rfl, rfl, rfl, rfl, rfl, rfl, rfl, ?_⟩
  intro e s2 h
  unfold no_autoflush
  rw [h]

/-- Witness for C6: a body that raises, run on a concrete session with
autoflush on; the error propagates and the flag is restored to `true`. -/
theorem no_autoflush_scoped_restore_witness :
    (no_autoflush (fun st => ((Except.error (Err.otherError "lost") : Except Err Unit), st))
        (⟨[], [], [], true, 5⟩ : Session)).2.autoflush = true ∧
    no_autoflush (fun st => ((Except.error (Err.otherError "lost") : Except Err Unit), st))
        (⟨[], [], [], true, 5⟩ : Session) =
      (Except.error (Err.otherError "lost"), (⟨[], [], [], true, 5⟩ : Session)) := by
  have h := no_autoflush_scoped_restore Unit
    (fun st => ((Except.error (Err.otherError "lost") : Except Err Unit), st))
    (⟨[], [], [], true, 5⟩ : Session)
  exact ⟨h.1, h.2.2.2.2.2.2.2 (Err.otherError "lost") (⟨[], [], [], false, 5⟩ : Session) rfl⟩

/-- C9: when a manager subclass explicitly declares a valid bound entity
type (a class subclassing `Base`), `__init_subclass__` returns before the
generic-parameter loop runs: the final `model` attribute is the explicit
one, for every list of generic bases — even one naming a different entity
type. -/
theorem init_subclass_explicit_model_wins (attr : PyVal) (bases : List OrigBase)
    (h : isValidModel attr = true) :
    initSubclass attr bases = Except.ok attr := by
  unfold initSubclass
  simp [h]

/-- Witness for C9: explicit `model = User` beats a generic parameter
naming `AccessToken`. -/
theorem init_subclass_explicit_model_wins_witness :
    isValidModel (PyVal.ty (PyTy.baseModel "User")) = true ∧
    initSubclass (PyVal.ty (PyTy.baseModel "User"))
        [⟨Origin.originMM, [TyArg.argTy (PyTy.baseModel "AccessToken")]⟩] =
      Except.ok (PyVal.ty (PyTy.baseModel "User")) :=
  ⟨rfl, init_subclass_explicit_model_wins _ _ rfl⟩

/-- C2, counterexample: a subclass that neither declares a model nor
supplies a usable generic parameter (its only orig base is
`Generic[ModelT]`, whose origin is not `ModelManager` and whose argument is
a `TypeVar`) is defined WITHOUT any error: `__init_subclass__` completes,
leaving the model attribute unset, and no configuration error is raised;
the failure instead occurs at runtime when an operation reads
`self.model` (an `AttributeError`). -/
theorem init_subclass_unbound_cex :
    initSubclass PyVal.pyNone [⟨Origin.originOther, [TyArg.argTyVar "ModelT"]⟩] =
      Except.ok PyVal.pyNone ∧
    initSubclass PyVal.pyNone [⟨Origin.originOther, [TyArg.argTyVar "ModelT"]⟩] ≠
      Except.error ConfigErr.missingModel ∧
    selectStmt PyVal.pyNone = Except.error Err.attributeError := by
  refine ⟨rfl, ?_, rfl⟩
  intro h
  exact Except.noConfusion h

/-- C2 (amended): when a manager subclass neither declares a valid bound
entity type nor supplies one through a matching generic base, the class
definition SUCCEEDS silently — `__init_subclass__` raises nothing and
leaves the `model` attribute as it was — and the configuration failure
surfaces only later, at runtime, when an operation accesses the unset
model attribute. -/
theorem init_subclass_unbound_is_silent (attr : PyVal) (bases : List OrigBase)
    (hattr : isValidModel attr = false)
    (hbases : ∀ b ∈ bases, originMatches b.origin = false ∨ argsModel b.args = none) :
    initSubclass attr bases = Except.ok attr ∧
    (attr = PyVal.pyNone → selectStmt attr = Except.error Err.attributeError) := by
  constructor
  · unfold initSubclass
    simp [hattr]
    exact loopBases_no_model attr bases hbases
  · intro h
    subst h
    rfl

/-- Witness for the amended C2: the concrete unbound subclass shape. -/
theorem init_subclass_unbound_is_silent_witness :
    initSubclass PyVal.pyNone [⟨Origin.originOther, [TyArg.argTyVar "ModelT"]⟩] =
      Except.ok PyVal.pyNone ∧
    selectStmt PyVal.pyNone = Except.error Err.attributeError := by
  have h := init_subclass_unbound_is_silent PyVal.pyNone
    [⟨Origin.originOther, [TyArg.argTyVar "ModelT"]⟩] rfl
    (by intro b hb; simp at hb; subst hb; right; rfl)
  exact ⟨h.1, h.2 rfl⟩

/-- C1: in `get_or_create` and `update_or_create`, when the initial lookup
raises a `StatementError` whose message contains
"no value has been set for this column", the error is swallowed and the
create branch runs (the call returns `(instance, True)` with the merged
fields, raising nothing); a lookup failure of any other kind — a
`StatementError` with any other message, or a non-`StatementError` such as
`MultipleResultsFound` — propagates unmodified to the caller. -/
theorem maybe_lookup_error_classification (s s1 : Session)
    (defaults flt fields : Fields) (commit : Bool) (msg : String) (e : Err) :
    (get_by flt { s with autoflush := false } =
        (Except.error (Err.statementError msg), s1) →
      strHas msg unsetColNeedle = true →
      kwargsMerge defaults flt = Except.ok fields →
      (∃ i s2, get_or_create defaults flt commit s = (Except.ok (i, true), s2) ∧
        i.fields = fields) ∧
      (∃ i s2, update_or_create defaults flt commit s = (Except.ok (i, true), s2) ∧
        i.fields = fields)) ∧
    (get_by flt { s with autoflush := false } = (Except.error e, s1) →
      (∀ m, e = Err.statementError m → strHas m unsetColNeedle = false) →
      (∃ s2, get_or_create defaults flt commit s = (Except.error e, s2)) ∧
      (∃ s2, update_or_create defaults flt commit s = (Except.error e, s2))) := by
  constructor
  · intro hgb hsub hmerge
    have hbody : maybe_get_by_body flt { s with autoflush := false } =
        (Except.ok none, s1) := by
      unfold maybe_get_by_body
      rw [hgb]
      simp [hsub]
    have hm : maybe_get_by flt s =
        (Except.ok none, { s1 with autoflush := s.autoflush }) := by
      unfold maybe_get_by no_autoflush
      rw [hbody]
    constructor
    · exact ⟨_, _, by unfold get_or_create; rw [hm, hmerge], rfl⟩
    · exact ⟨_, _, by unfold update_or_create; rw [hm, hmerge], rfl⟩
  · intro hgb hnot
    have hbody : maybe_get_by_body flt { s with autoflush := false } =
        (Except.error e, s1) := by
      unfold maybe_get_by_body
      rw [hgb]
      rcases e with m | _ | k | _ | m
      · simp [hnot m rfl]
      all_goals rfl
    have hm : maybe_get_by flt s =
        (Except.error e, { s1 with autoflush := s.autoflush }) := by
      unfold maybe_get_by no_autoflush
      rw [hbody]
    exact ⟨⟨_, by unfold get_or_create; rw [hm]⟩,
           ⟨_, by unfold update_or_create; rw [hm]⟩⟩

/-- Witness for C1: an unset-column filter value makes `get_or_create`
create (nothing raised); a statement error with an unrelated message
("Connection refused") propagates unmodified. -/
theorem maybe_lookup_error_classification_witness :
    (∃ i s2, get_or_create [("name", Val.str "A")]
        [("owner", Val.unsetCol "owner_id")] false
        (⟨[], [], [], true, 0⟩ : Session) = (Except.ok (i, true), s2) ∧
      i.fields = [("name", Val.str "A"), ("owner", Val.unsetCol "owner_id")]) ∧
    (∃ s2, get_or_create [] [("name", Val.errVal "Connection refused")] false
        (⟨[], [], [], true, 0⟩ : Session) =
      (Except.error (Err.statementError "Connection refused"), s2)) := by
  constructor
  · exact ((maybe_lookup_error_classification
      (⟨[], [], [], true, 0⟩ : Session) (⟨[], [], [], false, 0⟩ : Session)
      [("name", Val.str "A")] [("owner", Val.unsetCol "owner_id")]
      [("name", Val.str "A"), ("owner", Val.unsetCol "owner_id")] false
      "Error binding parameter: no value has been set for this column owner_id"
      (Err.otherError "")).1 rfl (by decide) rfl).1
  · exact ((maybe_lookup_error_classification
      (⟨[], [], [], true, 0⟩ : Session) (⟨[], [], [], false, 0⟩ : Session)
      [] [("name", Val.errVal "Connection refused")] [] false ""
      (Err.statementError "Connection refused")).2 rfl
      (fun m hm => by injection hm with h; subst h; decide)).1

/-- C10: on the create branch of `get_or_create`/`update_or_create`, when
the defaults and the filter have disjoint keys the create succeeds with
the union of both (defaults first, then filter fields, exactly the Python
`**defaults, **kwargs` merge); when some filter key also appears in the
defaults, the call fails with a duplicate-keyword `TypeError` and the
session is left exactly as it was — no record is created with either
value. -/
theorem create_branch_kwargs (s : Session) (defaults flt : Fields)
    (commit : Bool) (hnone : (maybe_get_by flt s).1 = Except.ok none) :
    ((∀ kv ∈ flt, ∀ dv ∈ defaults, kv.1 ≠ dv.1) →
      (∃ i s2, get_or_create defaults flt commit s = (Except.ok (i, true), s2) ∧
        i.fields = defaults ++ flt) ∧
      (∃ i s2, update_or_create defaults flt commit s = (Except.ok (i, true), s2) ∧
        i.fields = defaults ++ flt)) ∧
    (∀ kv ∈ flt, kv.1 ∈ defaults.map Prod.fst →
      ∃ k, get_or_create defaults flt commit s =
          (Except.error (Err.typeErrorDupKwarg k), s) ∧
        update_or_create defaults flt commit s =
          (Except.error (Err.typeErrorDupKwarg k), s)) := by
  have hm : maybe_get_by flt s = (Except.ok none, s) := by
    rw [Prod.ext_iff]
    exact ⟨hnone, maybe_get_by_state flt s⟩
  constructor
  · intro hdisj
    have hfind : flt.find? (fun kv => defaults.any (fun dv => dv.1 == kv.1)) = none := by
      rw [List.find?_eq_none]
      intro kv hkv hany
      rcases List.any_eq_true.mp hany with ⟨dv, hdv, hbeq⟩
      exact hdisj kv hkv dv hdv (beq_iff_eq.mp hbeq).symm
    have hmerge : kwargsMerge defaults flt = Except.ok (defaults ++ flt) := by
      unfold kwargsMerge
      rw [hfind]
    constructor
    · exact ⟨_, _, by unfold get_or_create; rw [hm, hmerge], rfl⟩
    · exact ⟨_, _, by unfold update_or_create; rw [hm, hmerge], rfl⟩
  · intro kv hkv hdup
    have hsome : ∃ kv2, flt.find? (fun kv2 => defaults.any (fun dv => dv.1 == kv2.1)) =
        some kv2 := by
      rw [← Option.isSome_iff_exists, List.find?_isSome]
      refine ⟨kv, hkv, ?_⟩
      rw [List.any_eq_true]
      rcases List.mem_map.mp hdup with ⟨dv, hdv, hfst⟩
      exact ⟨dv, hdv, beq_iff_eq.mpr hfst⟩
    rcases hsome with ⟨kv2, hfind⟩
    have hmerge : kwargsMerge defaults flt =
        Except.error (Err.typeErrorDupKwarg kv2.1) := by
      unfold kwargsMerge
      rw [hfind]
    exact ⟨kv2.1, by unfold get_or_create; rw [hm, hmerge],
      by unfold update_or_create; rw [hm, hmerge]⟩

/-- Witness for C10: disjoint keys `name`/`email` create the union; the
same key `email` in both defaults and filter raises the duplicate-keyword
error and leaves the session untouched. -/
theorem create_branch_kwargs_witness :
    (∃ i s2, get_or_create [("name", Val.str "A")] [("email", Val.str "x")] false
        (⟨[], [], [], true, 0⟩ : Session) = (Except.ok (i, true), s2) ∧
      i.fields = [("name", Val.str "A")] ++ [("email", Val.str "x")]) ∧
    (∃ k, get_or_create [("email", Val.str "x")] [("email", Val.str "y")] false
        (⟨[], [], [], true, 0⟩ : Session) =
        (Except.error (Err.typeErrorDupKwarg k), (⟨[], [], [], true, 0⟩ : Session)) ∧
      update_or_create [("email", Val.str "x")] [("email", Val.str "y")] false
        (⟨[], [], [], true, 0⟩ : Session) =
        (Except.error (Err.typeErrorDupKwarg k), (⟨[], [], [], true, 0⟩ : Session))) := by
  constructor
  · exact (((create_branch_kwargs (⟨[], [], [], true, 0⟩ : Session)
      [("name", Val.str "A")] [("email", Val.str "x")] false rfl).1
      (by decide)).1)
  · exact (create_branch_kwargs (⟨[], [], [], true, 0⟩ : Session)
      [("email", Val.str "x")] [("email", Val.str "y")] false rfl).2
      ("email", Val.str "y") (by decide) (by decide)

/-
Lemmas about flushing (`applyOne` / `applyPending`) and lookups.
-/

theorem oid_pred_applyOne (P : Nat → Prop) (txn : List Inst) (p : Inst)
    (htxn : ∀ r ∈ txn, P r.oid) (hp : P p.oid) :
    ∀ q ∈ applyOne txn p, P q.oid := by
  intro q hq
  unfold applyOne at hq
  by_cases hany : (txn.any fun r => r.oid == p.oid) = true
  · rw [if_pos hany] at hq
    rcases List.mem_map.mp hq with ⟨r, hr, hrq⟩
    by_cases hoid : (r.oid == p.oid) = true
    · rw [if_pos hoid] at hrq
      rw [← hrq]
      exact hp
    · rw [if_neg hoid] at hrq
      rw [← hrq]
      exact htxn r hr
  · rw [if_neg hany] at hq
    rcases List.mem_append.mp hq with hq | hq
    · exact htxn q hq
    · rw [List.mem_singleton.mp hq]
      exact hp

theorem oid_pred_applyPending (P : Nat → Prop) (txn ps : List Inst)
    (htxn : ∀ r ∈ txn, P r.oid) (hps : ∀ r ∈ ps, P r.oid) :
    ∀ q ∈ applyPending txn ps, P q.oid := by
  induction ps generalizing txn with
  | nil => exact htxn
  | cons p rest ih =>
      intro q hq
      exact ih (applyOne txn p)
        (oid_pred_applyOne P txn p htxn (hps p (by simp)))
        (fun r hr => hps r (by simp [hr])) q hq

theorem mem_applyOne_self (txn : List Inst) (p : Inst) : p ∈ applyOne txn p := by
  unfold applyOne
  by_cases hany : (txn.any fun r => r.oid == p.oid) = true
  · rw [if_pos hany]
    rcases List.any_eq_true.mp hany with ⟨r, hr, hoid⟩
    exact List.mem_map.mpr ⟨r, hr, by rw [if_pos hoid]⟩
  · rw [if_neg hany]
    exact List.mem_append.mpr (Or.inr (by simp))

theorem applyOne_oid_eq (txn : List Inst) (p q : Inst)
    (hq : q ∈ applyOne txn p) (hoid : q.oid = p.oid) : q = p := by
  unfold applyOne at hq
  by_cases hany : (txn.any fun r => r.oid == p.oid) = true
  · rw [if_pos hany] at hq
    rcases List.mem_map.mp hq with ⟨r, _, hrq⟩
    by_cases hro : (r.oid == p.oid) = true
    · rw [if_pos hro] at hrq
      exact hrq.symm
    · rw [if_neg hro] at hrq
      exact absurd (beq_iff_eq.mpr (hrq ▸ hoid)) hro
  · rw [if_neg hany] at hq
    rcases List.mem_append.mp hq with hq | hq
    · have hq2 : (txn.any fun r => r.oid == p.oid) = true :=
        List.any_eq_true.mpr ⟨q, hq, beq_iff_eq.mpr hoid⟩
      exact absurd hq2 hany
    · exact List.mem_singleton.mp hq

theorem mem_applyOne_of_mem (txn : List Inst) (p x : Inst)
    (hx : x ∈ txn) (h : p.oid = x.oid → p = x) : x ∈ applyOne txn p := by
  unfold applyOne
  by_cases hany : (txn.any fun r => r.oid == p.oid) = true
  · rw [if_pos hany]
    by_cases hoid : (x.oid == p.oid) = true
    · have : p = x := h (beq_iff_eq.mp hoid).symm
      exact List.mem_map.mpr ⟨x, hx, by rw [if_pos hoid, this]⟩
    · exact List.mem_map.mpr ⟨x, hx, by rw [if_neg hoid]⟩
  · rw [if_neg hany]
    exact List.mem_append.mpr (Or.inl hx)

theorem mem_applyPending_of_mem_txn (txn ps : List Inst) (x : Inst)
    (hx : x ∈ txn) (h : ∀ p ∈ ps, p.oid = x.oid → p = x) :
    x ∈ applyPending txn ps := by
  induction ps generalizing txn with
  | nil => exact hx
  | cons p rest ih =>
      exact ih (applyOne txn p)
        (mem_applyOne_of_mem txn p x hx (h p (by simp)))
        (fun q hq => h q (by simp [hq]))

theorem mem_applyPending_of_mem_pending (txn ps : List Inst) (x : Inst)
    (hx : x ∈ ps) (h : ∀ p ∈ ps, p.oid = x.oid → p = x) :
    x ∈ applyPending txn ps := by
  induction ps generalizing txn with
  | nil => cases hx
  | cons p rest ih =>
      rcases List.mem_cons.mp hx with rfl | hx
      · exact mem_applyPending_of_mem_txn (applyOne txn x) rest x
          (mem_applyOne_self txn x)
          (fun q hq => h q (List.mem_cons.mpr (Or.inr hq)))
      · exact ih (applyOne txn p) hx
          (fun q hq => h q (List.mem_cons.mpr (Or.inr hq)))

theorem find?_oid_append (acc : List Inst) (x : Inst) (n : Nat)
    (h : ∀ r ∈ acc, r.oid ≠ n) (hx : x.oid = n) :
    (acc ++ [x]).find? (fun r => r.oid == n) = some x := by
  induction acc with
  | nil =>
      simp only [List.nil_append, List.find?]
      rw [beq_iff_eq.mpr hx]
  | cons a t ih =>
      have ha : (a.oid == n) = false :=
        beq_eq_false_iff_ne.mpr (h a (by simp))
      simp only [List.cons_append, List.find?]
      rw [ha]
      exact ih (fun r hr => h r (by simp [hr]))

theorem autoflushQ_oid_pred (P : Nat → Prop) (s : Session)
    (h1 : ∀ r ∈ s.dbTxn, P r.oid) (h2 : ∀ r ∈ s.pending, P r.oid) :
    ∀ q ∈ (autoflushQ s).dbTxn, P q.oid := by
  unfold autoflushQ
  by_cases haf : s.autoflush = true
  · rw [if_pos haf]
    exact oid_pred_applyPending P s.dbTxn s.pending h1 h2
  · rw [if_neg haf]
    exact h1

theorem autoflushQ_dbTxn_no_pending (s : Session) (hp : s.pending = []) :
    (autoflushQ s).dbTxn = s.dbTxn := by
  unfold autoflushQ
  by_cases haf : s.autoflush = true
  · rw [if_pos haf]
    show applyPending s.dbTxn s.pending = s.dbTxn
    rw [hp]
    rfl
  · rw [if_neg haf]

theorem lookupField_append_right (defaults flt : Fields) (k : String)
    (hnone : defaults.find? (fun kv => kv.1 == k) = none) :
    lookupField (defaults ++ flt) k = lookupField flt k := by
  unfold lookupField
  rw [List.find?_append, hnone, Option.none_or]

theorem find?_key_nodup (flt : Fields) (k : String) (v : Val)
    (hnodup : (flt.map Prod.fst).Nodup) (hmem : (k, v) ∈ flt) :
    flt.find? (fun kv => kv.1 == k) = some (k, v) := by
  induction flt with
  | nil => cases hmem
  | cons a t ih =>
      rw [List.map_cons] at hnodup
      rcases List.nodup_cons.mp hnodup with ⟨hnotin, hnd⟩
      rcases List.mem_cons.mp hmem with rfl | hmem
      · simp only [List.find?]
        rw [show ((k, v).1 == k) = true from beq_iff_eq.mpr rfl]
      · have hne : (a.1 == k) = false := by
          rw [beq_eq_false_iff_ne]
          intro hak
          exact hnotin (hak ▸ List.mem_map.mpr ⟨(k, v), hmem, rfl⟩)
        simp only [List.find?]
        rw [hne]
        exact ih hnd hmem

theorem matchesFlt_union (defaults flt : Fields) (oid : Nat)
    (hnodup : (flt.map Prod.fst).Nodup)
    (hdisj : ∀ kv ∈ flt, ∀ dv ∈ defaults, kv.1 ≠ dv.1) :
    matchesFlt flt ⟨oid, defaults ++ flt⟩ = true := by
  unfold matchesFlt
  rw [List.all_eq_true]
  intro kv hkv
  have hdnone : defaults.find? (fun dv => dv.1 == kv.1) = none := by
    rw [List.find?_eq_none]
    intro dv hdv hbeq
    exact hdisj kv hkv dv hdv (beq_iff_eq.mp hbeq).symm
  have hl : lookupField (defaults ++ flt) kv.1 = some kv.2 := by
    rw [lookupField_append_right defaults flt kv.1 hdnone]
    unfold lookupField
    rw [find?_key_nodup flt kv.1 kv.2 hnodup hkv]
    rfl
  show (lookupField (⟨oid, defaults ++ flt⟩ : Inst).fields kv.1 == some kv.2) = true
  rw [show (⟨oid, defaults ++ flt⟩ : Inst).fields = defaults ++ flt from rfl, hl]
  exact beq_iff_eq.mpr rfl

theorem maybe_get_by_none (flt : Fields) (s : Session)
    (hb : bindErr flt = none)
    (hnm : s.dbTxn.filter (matchesFlt flt) = []) :
    maybe_get_by flt s = (Except.ok none, s) := by
  have hnm2 : ({ s with autoflush := false } : Session).dbTxn.filter
      (matchesFlt flt) = [] := hnm
  have hgb : get_by flt { s with autoflush := false } =
      (Except.ok none, { s with autoflush := false }) := by
    unfold get_by
    rw [hb, autoflushQ_off _ rfl, hnm2]
  have hbody : maybe_get_by_body flt { s with autoflush := false } =
      (Except.ok none, { s with autoflush := false }) := by
    unfold maybe_get_by_body
    rw [hgb]
  unfold maybe_get_by no_autoflush
  rw [hbody]

theorem maybe_get_by_found (flt : Fields) (s : Session) (i : Inst)
    (hb : bindErr flt = none)
    (hone : s.dbTxn.filter (matchesFlt flt) = [i]) :
    maybe_get_by flt s = (Except.ok (some i), s) := by
  have hone2 : ({ s with autoflush := false } : Session).dbTxn.filter
      (matchesFlt flt) = [i] := hone
  have hgb : get_by flt { s with autoflush := false } =
      (Except.ok (some i), { s with autoflush := false }) := by
    unfold get_by
    rw [hb, autoflushQ_off _ rfl, hone2]
  have hbody : maybe_get_by_body flt { s with autoflush := false } =
      (Except.ok (some i), { s with autoflush := false }) := by
    unfold maybe_get_by_body
    rw [hgb]
  unfold maybe_get_by no_autoflush
  rw [hbody]

theorem kwargsMerge_disjoint (defaults flt : Fields)
    (hdisj : ∀ kv ∈ flt, ∀ dv ∈ defaults, kv.1 ≠ dv.1) :
    kwargsMerge defaults flt = Except.ok (defaults ++ flt) := by
  unfold kwargsMerge
  rw [show flt.find? (fun kv => defaults.any (fun dv => dv.1 == kv.1)) = none by
    rw [List.find?_eq_none]
    intro kv hkv hany
    rcases List.any_eq_true.mp hany with ⟨dv, hdv, hbeq⟩
    exact hdisj kv hkv dv hdv (beq_iff_eq.mp hbeq).symm]

/-- C3: for a well-formed field-value filter over persisted rows (no
pending changes), `get_by` raises `MultipleResultsFound` (the spec's
AmbiguousResult) iff more than one row matches, returns `none` iff zero
rows match, and returns the unique instance iff exactly one row matches. -/
theorem get_by_trichotomy (s : Session) (flt : Fields)
    (hp : s.pending = []) (hb : bindErr flt = none) :
    ((get_by flt s).1 = Except.error Err.multipleResultsFound ↔
      1 < (s.dbTxn.filter (matchesFlt flt)).length) ∧
    ((get_by flt s).1 = Except.ok none ↔
      (s.dbTxn.filter (matchesFlt flt)).length = 0) ∧
    (∀ i : Inst, (get_by flt s).1 = Except.ok (some i) ↔
      s.dbTxn.filter (matchesFlt flt) = [i]) := by
  have hQ : (autoflushQ s).dbTxn = s.dbTxn := autoflushQ_dbTxn_no_pending s hp
  rcases hf : s.dbTxn.filter (matchesFlt flt) with _ | ⟨a, _ | ⟨b, t⟩⟩
  · have hgb : (get_by flt s).1 = Except.ok none := by
      unfold get_by
      rw [hb, hQ, hf]
    refine ⟨by simp [hgb, hf], by simp [hgb, hf], fun i => by simp [hgb, hf]⟩
  · have hgb : (get_by flt s).1 = Except.ok (some a) := by
      unfold get_by
      rw [hb, hQ, hf]
    refine ⟨by simp [hgb, hf], by simp [hgb, hf], fun i => ?_⟩
    rw [hgb]
    constructor
    · intro h
      injection h with h2
      injection h2 with h3
      rw [h3]
    · intro h
      injection h with h3 _
      rw [h3]
  · have hgb : (get_by flt s).1 = Except.error Err.multipleResultsFound := by
      unfold get_by
      rw [hb, hQ, hf]
    refine ⟨?_, by simp [hgb, hf], fun i => by simp [hgb, hf]⟩
    rw [hgb]
    simp only [List.length_cons]
    constructor
    · intro _
      omega
    · intro _
      trivial

/-- Witness for C3: one persisted row matching the filter is returned as
the unique instance. -/
theorem get_by_trichotomy_witness :
    (get_by [("a", Val.str "1")]
        (⟨[], [(⟨0, [("a", Val.str "1")]⟩ : Inst)], [], true, 5⟩ : Session)).1 =
      Except.ok (some (⟨0, [("a", Val.str "1")]⟩ : Inst)) :=
  ((get_by_trichotomy
    (⟨[], [(⟨0, [("a", Val.str "1")]⟩ : Inst)], [], true, 5⟩ : Session)
    [("a", Val.str "1")] rfl rfl).2.2 (⟨0, [("a", Val.str "1")]⟩ : Inst)).mpr rfl

/-- C4: on a match, `update_or_create` overwrites the instance's fields
with the defaults by attribute assignment (dirtying it in the session) and
returns `(instance, False)` WITHOUT saving or committing: the resulting
state does not depend on the commit flag and its durable rows are exactly
the caller's — only a separate, later commit makes the update durable
(stated as membership after `commitS`).  On no match, a new instance is
created from the merged defaults-plus-filter fields and `(instance, True)`
is returned. -/
theorem update_or_create_match_no_save (s : Session) (inst : Inst)
    (defaults flt : Fields) (commit : Bool) :
    ((maybe_get_by flt s).1 = Except.ok (some inst) →
      update_or_create defaults flt commit s =
        (Except.ok (setAttrs inst defaults, false),
         { s with pending := applyPending s.pending [setAttrs inst defaults] }) ∧
      (update_or_create defaults flt commit s).2.dbDurable = s.dbDurable ∧
      setAttrs inst defaults ∈
        (commitS (update_or_create defaults flt commit s).2).dbDurable) ∧
    (∀ fields : Fields, (maybe_get_by flt s).1 = Except.ok none →
      kwargsMerge defaults flt = Except.ok fields →
      ∃ i s2, update_or_create defaults flt commit s = (Except.ok (i, true), s2) ∧
        i.fields = fields) := by
  constructor
  · intro h1
    have hm1 : maybe_get_by flt s = (Except.ok (some inst), s) := by
      rw [Prod.ext_iff]
      exact ⟨h1, maybe_get_by_state flt s⟩
    have heq : update_or_create defaults flt commit s =
        (Except.ok (setAttrs inst defaults, false),
         { s with pending := applyPending s.pending [setAttrs inst defaults] }) := by
      unfold update_or_create
      rw [hm1]
    refine ⟨heq, by rw [heq], ?_⟩
    rw [heq]
    show setAttrs inst defaults ∈
      applyPending s.dbTxn (applyPending s.pending [setAttrs inst defaults])
    have hx : setAttrs inst defaults ∈ applyPending s.pending [setAttrs inst defaults] :=
      mem_applyOne_self s.pending (setAttrs inst defaults)
    have huniq : ∀ p ∈ applyPending s.pending [setAttrs inst defaults],
        p.oid = (setAttrs inst defaults).oid → p = setAttrs inst defaults :=
      fun p hp hoid => applyOne_oid_eq s.pending (setAttrs inst defaults) p hp hoid
    exact mem_applyPending_of_mem_pending s.dbTxn _ _ hx huniq
  · intro fields h1 hmerge
    have hm1 : maybe_get_by flt s = (Except.ok none, s) := by
      rw [Prod.ext_iff]
      exact ⟨h1, maybe_get_by_state flt s⟩
    exact ⟨_, _, by unfold update_or_create; rw [hm1, hmerge], rfl⟩

/-- Witness for C4: updating a matched row ignores commit=true (durable
rows unchanged), and the no-match branch creates with merged fields. -/
theorem update_or_create_match_no_save_witness :
    ((update_or_create [("name", Val.str "B")] [("email", Val.str "b")] true
        (⟨[(⟨7, [("email", Val.str "b")]⟩ : Inst)],
          [(⟨7, [("email", Val.str "b")]⟩ : Inst)], [], true, 8⟩ : Session)).2.dbDurable =
      [(⟨7, [("email", Val.str "b")]⟩ : Inst)]) ∧
    (∃ i s2, update_or_create [("name", Val.str "B")] [("email", Val.str "b")] false
        (⟨[], [], [], true, 0⟩ : Session) = (Except.ok (i, true), s2) ∧
      i.fields = [("name", Val.str "B")] ++ [("email", Val.str "b")]) := by
  constructor
  · exact ((update_or_create_match_no_save
      (⟨[(⟨7, [("email", Val.str "b")]⟩ : Inst)],
        [(⟨7, [("email", Val.str "b")]⟩ : Inst)], [], true, 8⟩ : Session)
      (⟨7, [("email", Val.str "b")]⟩ : Inst)
      [("name", Val.str "B")] [("email", Val.str "b")] true).1 rfl).2.1
  · exact (update_or_create_match_no_save (⟨[], [], [], true, 0⟩ : Session)
      (⟨0, []⟩ : Inst) [("name", Val.str "B")] [("email", Val.str "b")] false).2
      ([("name", Val.str "B")] ++ [("email", Val.str "b")]) rfl rfl

/-- C7: `create(fields)` followed by `get` of the created record's primary
key returns the created instance, whose fields are exactly the supplied
field values — for any commit flag, on a session with flush-then-read
semantics (autoflush on) and a fresh next identity. -/
theorem create_get_roundtrip (s : Session) (fields : Fields) (commit : Bool)
    (haf : s.autoflush = true)
    (hfresh1 : ∀ r ∈ s.dbTxn, r.oid ≠ s.nextOid)
    (hfresh2 : ∀ r ∈ s.pending, r.oid ≠ s.nextOid) :
    (create fields commit s).1.fields = fields ∧
    (get (create fields commit s).1.oid (create fields commit s).2).1 =
      Except.ok (some (create fields commit s).1) := by
  refine ⟨rfl, ?_⟩
  have hkey : ∀ q ∈ applyPending s.dbTxn s.pending, q.oid ≠ s.nextOid :=
    oid_pred_applyPending (fun n => n ≠ s.nextOid) s.dbTxn s.pending hfresh1 hfresh2
  have hsplit : applyPending s.dbTxn (s.pending ++ [(⟨s.nextOid, fields⟩ : Inst)]) =
      applyOne (applyPending s.dbTxn s.pending) ⟨s.nextOid, fields⟩ := by
    unfold applyPending
    rw [List.foldl_append]
    rfl
  have hany : ((applyPending s.dbTxn s.pending).any
      (fun r => r.oid == s.nextOid)) = false := by
    rw [List.any_eq_false]
    intro r hr hbeq
    exact hkey r hr (beq_iff_eq.mp hbeq)
  have hfind : (applyPending s.dbTxn (s.pending ++ [(⟨s.nextOid, fields⟩ : Inst)])).find?
      (fun r => r.oid == s.nextOid) = some ⟨s.nextOid, fields⟩ := by
    rw [hsplit]
    unfold applyOne
    simp only [hany, Bool.false_eq_true, if_false]
    exact find?_oid_append _ _ _ hkey rfl
  have hQ : (autoflushQ (create fields commit s).2).dbTxn =
      applyPending s.dbTxn (s.pending ++ [(⟨s.nextOid, fields⟩ : Inst)]) := by
    cases commit with
    | false =>
        unfold autoflushQ
        rw [show (create fields false s).2.autoflush = true from haf]
        rfl
    | true =>
        unfold autoflushQ
        rw [show (create fields true s).2.autoflush = true from haf]
        rfl
  show Except.ok ((autoflushQ (create fields commit s).2).dbTxn.find?
      (fun r => r.oid == s.nextOid)) =
    Except.ok (some (⟨s.nextOid, fields⟩ : Inst))
  rw [hQ, hfind]

/-- Witness for C7: creating on a fresh session and reading back by the
new primary key returns the created record. -/
theorem create_get_roundtrip_witness :
    (create [("email", Val.str "e")] false (⟨[], [], [], true, 0⟩ : Session)).1.fields =
      [("email", Val.str "e")] ∧
    (get (create [("email", Val.str "e")] false (⟨[], [], [], true, 0⟩ : Session)).1.oid
        (create [("email", Val.str "e")] false (⟨[], [], [], true, 0⟩ : Session)).2).1 =
      Except.ok (some (create [("email", Val.str "e")] false
        (⟨[], [], [], true, 0⟩ : Session)).1) :=
  create_get_roundtrip (⟨[], [], [], true, 0⟩ : Session) [("email", Val.str "e")] false
    rfl (by intro r hr; cases hr) (by intro r hr; cases hr)

/-- C8: a single-record lookup that finds nothing yields an absent result
and never an error: `get` always returns `Except.ok` (for every session
and key), `get` of a primary key held by no row returns `none`, and
`get_by` with a well-formed filter matching zero rows returns `none`. -/
theorem missing_record_is_absent (s : Session) (pk : Nat) (flt : Fields)
    (hpk1 : ∀ r ∈ s.dbTxn, r.oid ≠ pk) (hpk2 : ∀ r ∈ s.pending, r.oid ≠ pk)
    (hb : bindErr flt = none)
    (hnm : (autoflushQ s).dbTxn.filter (matchesFlt flt) = []) :
    (∀ (s2 : Session) (k : Nat), ∃ o, (get k s2).1 = Except.ok o) ∧
    (get pk s).1 = Except.ok none ∧
    (get_by flt s).1 = Except.ok none := by
  refine ⟨fun s2 k => ⟨_, rfl⟩, ?_, ?_⟩
  · have hfind : (autoflushQ s).dbTxn.find? (fun r => r.oid == pk) = none := by
      rw [List.find?_eq_none]
      intro r hr hbeq
      exact autoflushQ_oid_pred (fun n => n ≠ pk) s hpk1 hpk2 r hr (beq_iff_eq.mp hbeq)
    show Except.ok ((autoflushQ s).dbTxn.find? (fun r => r.oid == pk)) =
      Except.ok none
    rw [hfind]
  · unfold get_by
    rw [hb, hnm]

/-- Witness for C8: a session holding only the row with key 3; key 9 and a
filter on a field no row has both come back absent, not as errors. -/
theorem missing_record_is_absent_witness :
    (get 9 (⟨[(⟨3, []⟩ : Inst)], [(⟨3, []⟩ : Inst)], [], true, 4⟩ : Session)).1 =
      Except.ok none ∧
    (get_by [("email", Val.str "zzz")]
        (⟨[(⟨3, []⟩ : Inst)], [(⟨3, []⟩ : Inst)], [], true, 4⟩ : Session)).1 =
      Except.ok none := by
  have h := missing_record_is_absent
    (⟨[(⟨3, []⟩ : Inst)], [(⟨3, []⟩ : Inst)], [], true, 4⟩ : Session) 9
    [("email", Val.str "zzz")] (by decide) (by decide) rfl rfl
  exact ⟨h.2.1, h.2.2⟩

/-- C5 (amended): two sequential `get_or_create` calls with identical
filter fields, starting from a state with no matching row, are idempotent
WHEN the first call commits (so that its creation is flushed): the first
call returns `(instance, True)` with the record created from filter fields
plus defaults, and the second call returns the very same instance with
`False`, the defaults-supplied field values unchanged.  Without the
commit/flush the lookup — which always runs with autoflush suspended —
cannot see the first call's still-pending instance, and a second record is
created instead (see the counterexample). -/
theorem get_or_create_idempotent_after_commit (s : Session) (defaults flt : Fields)
    (hp : s.pending = []) (hb : bindErr flt = none)
    (hnodup : (flt.map Prod.fst).Nodup)
    (hdisj : ∀ kv ∈ flt, ∀ dv ∈ defaults, kv.1 ≠ dv.1)
    (hnm : s.dbTxn.filter (matchesFlt flt) = [])
    (hfresh : ∀ r ∈ s.dbTxn, r.oid ≠ s.nextOid) :
    ∃ i1 s2, get_or_create defaults flt true s = (Except.ok (i1, true), s2) ∧
      i1.fields = defaults ++ flt ∧
      get_or_create defaults flt true s2 = (Except.ok (i1, false), s2) := by
  have hm1 := maybe_get_by_none flt s hb hnm
  have hmerge := kwargsMerge_disjoint defaults flt hdisj
  have h1 : get_or_create defaults flt true s =
      (Except.ok ((⟨s.nextOid, defaults ++ flt⟩ : Inst), true),
       (create (defaults ++ flt) true s).2) := by
    unfold get_or_create
    rw [hm1, hmerge]
    rfl
  have hdb : (create (defaults ++ flt) true s).2.dbTxn =
      s.dbTxn ++ [(⟨s.nextOid, defaults ++ flt⟩ : Inst)] := by
    show applyPending s.dbTxn (s.pending ++ [(⟨s.nextOid, defaults ++ flt⟩ : Inst)]) = _
    rw [hp, List.nil_append]
    show applyOne s.dbTxn (⟨s.nextOid, defaults ++ flt⟩ : Inst) = _
    have hany : (s.dbTxn.any
        fun r => r.oid == (⟨s.nextOid, defaults ++ flt⟩ : Inst).oid) = false := by
      rw [List.any_eq_false]
      intro r hr hbeq
      exact hfresh r hr (beq_iff_eq.mp hbeq)
    unfold applyOne
    simp only [hany, Bool.false_eq_true, if_false]
  have hmatch : matchesFlt flt (⟨s.nextOid, defaults ++ flt⟩ : Inst) = true :=
    matchesFlt_union defaults flt s.nextOid hnodup hdisj
  have hfilter : (create (defaults ++ flt) true s).2.dbTxn.filter (matchesFlt flt) =
      [(⟨s.nextOid, defaults ++ flt⟩ : Inst)] := by
    rw [hdb, List.filter_append, hnm, List.nil_append]
    simp [hmatch]
  have hm2 : maybe_get_by flt (create (defaults ++ flt) true s).2 =
      (Except.ok (some (⟨s.nextOid, defaults ++ flt⟩ : Inst)),
       (create (defaults ++ flt) true s).2) :=
    maybe_get_by_found flt _ _ hb hfilter
  have h2 : get_or_create defaults flt true (create (defaults ++ flt) true s).2 =
      (Except.ok ((⟨s.nextOid, defaults ++ flt⟩ : Inst), false),
       (create (defaults ++ flt) true s).2) := by
    unfold get_or_create
    rw [hm2]
  exact ⟨_, _, h1, rfl, h2⟩

/-- Witness for the amended C5: the spec's own scenario with commit: both
calls agree on the one instance, `name` stays "B". -/
theorem get_or_create_idempotent_after_commit_witness :
    ∃ i1 s2, get_or_create [("name", Val.str "B")] [("email", Val.str "b@x.com")] true
        (⟨[], [], [], true, 0⟩ : Session) = (Except.ok (i1, true), s2) ∧
      i1.fields = [("name", Val.str "B")] ++ [("email", Val.str "b@x.com")] ∧
      get_or_create [("name", Val.str "B")] [("email", Val.str "b@x.com")] true s2 =
        (Except.ok (i1, false), s2) :=
  get_or_create_idempotent_after_commit (⟨[], [], [], true, 0⟩ : Session)
    [("name", Val.str "B")] [("email", Val.str "b@x.com")] rfl rfl
    (by decide) (by decide) rfl (by intro r hr; cases hr)

/-- C5, counterexample: with commit left False (its default), the second
of two sequential identical `get_or_create` calls does NOT return the
first call's instance with False, contrary to the claim: the lookup runs
with autoflush suspended, the first instance is still pending and
invisible to it, and a second record is created — both calls return
created=True, with distinct identities 0 and 1. -/
theorem get_or_create_sequential_cex :
    get_or_create [("name", Val.str "B")] [("email", Val.str "b@x.com")] false
        (⟨[], [], [], true, 0⟩ : Session) =
      (Except.ok ((⟨0, [("name", Val.str "B"), ("email", Val.str "b@x.com")]⟩ : Inst),
        true),
       (⟨[], [], [(⟨0, [("name", Val.str "B"), ("email", Val.str "b@x.com")]⟩ : Inst)],
         true, 1⟩ : Session)) ∧
    get_or_create [("name", Val.str "B")] [("email", Val.str "b@x.com")] false
        (⟨[], [], [(⟨0, [("name", Val.str "B"), ("email", Val.str "b@x.com")]⟩ : Inst)],
          true, 1⟩ : Session) =
      (Except.ok ((⟨1, [("name", Val.str "B"), ("email", Val.str "b@x.com")]⟩ : Inst),
        true),
       (⟨[], [],
         [(⟨0, [("name", Val.str "B"), ("email", Val.str "b@x.com")]⟩ : Inst),
          (⟨1, [("name", Val.str "B"), ("email", Val.str "b@x.com")]⟩ : Inst)],
         true, 2⟩ : Session)) ∧
    (1 : Nat) ≠ 0 :=
  ⟨rfl, rfl, by decide⟩

end FastapiStarter
